import Mathlib

/-!
Verification of the CORDET Demo client-socket adapter (`CrDaClientSocket`).
The repository exposes the adapter through its header `CrDaClientSocket.h`;
the implementation bodies are not part of the visible sources, so the
operations below are modelled from the specification (spec.md sections 3-4)
and the behavioural documentation in the header.  The adapter multiplexes
several logical packet sources over one non-blocking socket using a
single-slot Read Buffer tagged by the source attribute of the packet it
holds.
-/

/-- A packet is an opaque sequence of bytes (values below 256); the adapter
only ever reads the embedded source attribute, extracted by an external
accessor that we pass around as a function `g : Pckt → Nat`. -/
abbrev Pckt := List Nat

/-- Modelled from the spec: the visible state of the client-socket adapter.
`readBuffer` is the single-slot Read Buffer (an array of bytes of the
maximum packet size); `sockOpen` records whether the socket handle exists;
`pending` is the queue of packets available at the OS level for a
non-blocking read (head = next packet delivered); `port`/`host` are the
configuration settings (`none` = not yet set); `baseInitCalls` and
`baseConfigCalls` count invocations of the generic consumer-level lifecycle
hooks; `sent` records the packets successfully written to the socket. -/
structure ClientState where
  readBuffer : List Nat
  sockOpen : Bool
  pending : List Pckt
  port : Option Nat
  host : Option String
  baseInitCalls : Nat
  baseConfigCalls : Nat
  sent : List Pckt
deriving DecidableEq

/-- Modelled from the spec: the Read Buffer is FULL when its first byte is
different from zero and EMPTY when its first byte has been cleared
(header lines 56-60). -/
def bufferIsFull (buf : List Nat) : Bool :=
  buf.headD 0 != 0

/-- Modelled from the spec: clearing the Read Buffer means clearing its
first byte, which marks the buffer EMPTY. -/
def clearFirstByte (buf : List Nat) : List Nat :=
  buf.set 0 0

/-- A valid middleware packet has a non-zero first byte (the adapter relies
on first-byte-zero meaning "empty buffer", so a packet actually delivered
by the middleware never starts with a zero byte). -/
def pcktValid (p : Pckt) : Prop :=
  p.headD 0 ≠ 0

/-- All packets pending at the OS level are valid middleware packets. -/
def pendingValid (s : ClientState) : Prop :=
  ∀ p ∈ s.pending, pcktValid p

instance : DecidablePred pcktValid := fun p =>
  inferInstanceAs (Decidable (p.headD 0 ≠ 0))

instance (s : ClientState) : Decidable (pendingValid s) :=
  inferInstanceAs (Decidable (∀ p ∈ s.pending, pcktValid p))

/-- Modelled from the spec: `CrDaClientSocketIsPcktAvail` (header lines
205-223, spec 4.2).  If the Read Buffer is full and the source attribute of
the packet it contains equals `S`, return 1 with no I/O.  Otherwise perform
one non-blocking read: no data yields 0; data tagged with a source other
than `S` is stored in the buffer and yields 0; data tagged `S` is stored in
the buffer and yields 1. -/
def isPcktAvail (g : Pckt → Nat) (s : ClientState) (S : Nat) :
    Bool × ClientState :=
  if bufferIsFull s.readBuffer && (g s.readBuffer == S) then
    (true, s)
  else
    match s.pending with
    | [] => (false, s)
    | p :: rest => (g p == S, { s with readBuffer := p, pending := rest })

/-- Modelled from the spec: `CrDaClientSocketPcktCollect` (header lines
187-203, spec 4.3).  If the Read Buffer is full and its packet is tagged
`S`, make a new packet instance holding a copy of the buffered bytes, clear
the buffer, and return the new packet; otherwise return NULL (`none`) and
leave the state untouched — an expected, non-error outcome. -/
def pcktCollect (g : Pckt → Nat) (s : ClientState) (S : Nat) :
    Option Pckt × ClientState :=
  if bufferIsFull s.readBuffer && (g s.readBuffer == S) then
    (some s.readBuffer, { s with readBuffer := clearFirstByte s.readBuffer })
  else
    (none, s)

/-- Modelled from the spec: `CrDaClientSocketInitAction` (header lines
134-146, spec 4.1).  If the socket already exists, only the generic
consumer-level initialization hook runs and the outcome is success.
Otherwise the Read Buffer is created, the socket is created and connected
(`connectOk` stands for the outcome of those system calls), the generic
hook runs, and the outcome is success only if every step succeeded. -/
def initAction (maxLen : Nat) (connectOk : Bool) (s : ClientState) :
    Bool × ClientState :=
  if s.sockOpen then
    (true, { s with baseInitCalls := s.baseInitCalls + 1 })
  else if connectOk then
    (true, { s with readBuffer := List.replicate maxLen 0,
                    sockOpen := true,
                    baseInitCalls := s.baseInitCalls + 1 })
  else
    (false, { s with readBuffer := List.replicate maxLen 0 })

/-- Modelled from the spec: `CrDaClientSocketInitCheck` (header lines
159-166, spec 4.1).  The check succeeds when the maximum packet length is
smaller than 256 and the port number and server host name have been set. -/
def initCheck (maxLen : Nat) (s : ClientState) : Bool :=
  decide (maxLen < 256) && s.port.isSome && s.host.isSome

/-- Modelled from the spec: `CrDaClientSocketConfigAction` (header lines
168-174, spec 4.1).  Clears the Read Buffer and runs the generic
consumer-level configuration hook. -/
def configAction (s : ClientState) : ClientState :=
  { s with readBuffer := clearFirstByte s.readBuffer,
           baseConfigCalls := s.baseConfigCalls + 1 }

/-- Modelled from the spec: `CrDaClientSocketPcktHandover` (header lines
225-232, spec 4.4).  One non-blocking write of the packet's bytes:
`written = none` models a would-block condition, `written = some n` a write
of `n` bytes.  The result is 1 only for a complete write; partial writes
and would-block yield 0 with no retry and no buffering. -/
def pcktHandover (written : Option Nat) (pckt : Pckt)
    (s : ClientState) : Nat × ClientState :=
  match written with
  | none => (0, s)
  | some n =>
      if n == pckt.length then (1, { s with sent := s.sent ++ [pckt] })
      else (0, s)

/-- Modelled from the spec: `CrDaClientSocketPoll` (header lines 176-185,
spec 4.5).  One non-blocking read attempt; arriving data is stored in the
Read Buffer and the source of the stored packet is returned as the
notification delivered to the owning consumer. -/
def poll (g : Pckt → Nat) (s : ClientState) : Option Nat × ClientState :=
  match s.pending with
  | [] => (none, s)
  | p :: rest => (some (g p), { s with readBuffer := p, pending := rest })

/-- An interleaved call made by one of the logical consumers sharing the
adapter: a Packet Available Check or a Packet Collect for a given source. -/
inductive Event where
  | avail (src : Nat)
  | collect (src : Nat)
deriving DecidableEq

/-- Run a sequence of interleaved Packet Available Check / Packet Collect
calls from a starting state, returning the final state together with the
log of collected packets: each entry pairs the source that was requested
with the packet actually returned to it. -/
def runEvents (g : Pckt → Nat) : List Event → ClientState →
    ClientState × List (Nat × Pckt)
  | [], s => (s, [])
  | Event.avail src :: es, s => runEvents g es (isPcktAvail g s src).2
  | Event.collect src :: es, s =>
      let r := pcktCollect g s src
      let rest := runEvents g es r.2
      match r.1 with
      | some p => (rest.1, (src, p) :: rest.2)
      | none => (rest.1, rest.2)

/-- A concrete source-attribute accessor used by the witnesses: the source
is the second byte of the packet. -/
def gDemo : Pckt → Nat := fun p => p.getD 1 0

/-- A concrete adapter state used by the witnesses: socket open, buffer
empty, one packet tagged with source 1 pending at the OS level. -/
def sDemo : ClientState :=
  { readBuffer := [0, 0], sockOpen := true, pending := [[3, 1]],
    port := some 2001, host := some "localhost",
    baseInitCalls := 1, baseConfigCalls := 1, sent := [] }

/-- A concrete adapter state used by the witnesses: the Read Buffer is full
and holds a packet tagged with source 1; nothing is pending. -/
def sFull : ClientState :=
  { readBuffer := [3, 1], sockOpen := true, pending := [],
    port := some 2001, host := some "localhost",
    baseInitCalls := 1, baseConfigCalls := 1, sent := [] }

/-- A concrete adapter state used by the witnesses and the counterexample:
the Read Buffer holds a packet tagged with source 1 while a packet tagged
with source 3 is pending at the OS level. -/
def sMix : ClientState :=
  { readBuffer := [5, 1], sockOpen := true, pending := [[7, 3]],
    port := some 2001, host := some "localhost",
    baseInitCalls := 1, baseConfigCalls := 1, sent := [] }

/-- The state reached from `sDemo` after the pending packet tagged 1 has
been read into the Read Buffer. -/
def tDemo : ClientState :=
  { sDemo with readBuffer := [3, 1], pending := [] }

/-- Clearing the first byte of any buffer marks it EMPTY. -/
theorem bufferIsFull_clearFirstByte (buf : List Nat) :
    bufferIsFull (clearFirstByte buf) = false := by
  cases buf <;> simp [bufferIsFull, clearFirstByte]

/-- Claim C1: provided every pending packet is a valid middleware packet,
the Packet Available Check returns true exactly when, at the moment it
returns, the Read Buffer is full and its packet is tagged with the
requested source; when the buffer is already full and tagged with the
requested source it returns true with no I/O (the state, the pending queue
included, is untouched), and when the read is attempted but yields no data
it returns false with the state untouched. -/
theorem isPcktAvail_correct (g : Pckt → Nat) (s : ClientState) (S : Nat)
    (hv : pendingValid s) :
    ((isPcktAvail g s S).1 = true ↔
      (bufferIsFull (isPcktAvail g s S).2.readBuffer = true ∧
       g (isPcktAvail g s S).2.readBuffer = S)) ∧
    (bufferIsFull s.readBuffer = true ∧ g s.readBuffer = S →
      isPcktAvail g s S = (true, s)) ∧
    (s.pending = [] →
      ¬(bufferIsFull s.readBuffer = true ∧ g s.readBuffer = S) →
      isPcktAvail g s S = (false, s)) := by
  by_cases hg : (bufferIsFull s.readBuffer && (g s.readBuffer == S)) = true
  · have hg2 : bufferIsFull s.readBuffer = true ∧ g s.readBuffer = S := by
      rw [Bool.and_eq_true, beq_iff_eq] at hg
      exact hg
    simp [isPcktAvail, hg, hg2]
  · have hg2 : ¬(bufferIsFull s.readBuffer = true ∧ g s.readBuffer = S) := by
      rw [Bool.and_eq_true, beq_iff_eq] at hg
      exact hg
    rcases hp : s.pending with _ | ⟨p, rest⟩
    · simp [isPcktAvail, hg, hp, hg2]
    · have hvp : bufferIsFull p = true := by
        have hm := hv p (by rw [hp]; exact List.mem_cons_self p rest)
        simpa [bufferIsFull, pcktValid] using hm
      simp [isPcktAvail, hg, hp, hvp, hg2]

/-- Witness for C1 at a concrete state whose Read Buffer is full and tagged
with the requested source: the check reports true and performs no I/O. -/
theorem isPcktAvail_correct_witness :
    pendingValid sFull ∧ isPcktAvail gDemo sFull 1 = (true, sFull) :=
  ⟨by decide, (isPcktAvail_correct gDemo sFull 1 (by decide)).2.1 (by decide)⟩

/-- Claim C3: when the Read Buffer is full and its packet is tagged with
the requested source, Packet Collect returns a fresh copy of the buffered
bytes and clears the buffer to EMPTY; in every other buffer state it
returns NULL and leaves the state completely unchanged, which models the
expected, non-error "nothing to collect" outcome. -/
theorem pcktCollect_correct (g : Pckt → Nat) (s : ClientState) (S : Nat) :
    (bufferIsFull s.readBuffer = true → g s.readBuffer = S →
      pcktCollect g s S =
        (some s.readBuffer,
         { s with readBuffer := clearFirstByte s.readBuffer }) ∧
      bufferIsFull (pcktCollect g s S).2.readBuffer = false) ∧
    (¬(bufferIsFull s.readBuffer = true ∧ g s.readBuffer = S) →
      pcktCollect g s S = (none, s)) := by
  constructor
  · intro hf ht
    have hg : (bufferIsFull s.readBuffer && (g s.readBuffer == S)) = true := by
      rw [Bool.and_eq_true, beq_iff_eq]
      exact ⟨hf, ht⟩
    simp [pcktCollect, hg, bufferIsFull_clearFirstByte]
  · intro hn
    have hg : (bufferIsFull s.readBuffer && (g s.readBuffer == S)) = false := by
      rw [Bool.and_eq_false_iff]
      by_cases hb : bufferIsFull s.readBuffer = true
      · right
        rw [beq_eq_false_iff_ne]
        exact fun he => hn ⟨hb, he⟩
      · left
        exact Bool.eq_false_iff.mpr hb
    simp [pcktCollect, hg]

/-- Witness for C3 at a concrete full, matching state: collect returns the
buffered packet and clears the buffer. -/
theorem pcktCollect_correct_witness :
    bufferIsFull sFull.readBuffer = true ∧
    pcktCollect gDemo sFull 1 =
      (some sFull.readBuffer,
       { sFull with readBuffer := clearFirstByte sFull.readBuffer }) :=
  ⟨by decide,
   ((pcktCollect_correct gDemo sFull 1).1 (by decide) (by decide)).1⟩

/-- Claim C4: when the Packet Available Check performs its non-blocking
read and the read yields a packet whose source differs from the requested
one, the packet is stored in the Read Buffer — which becomes full (for a
valid packet) and tagged with the packet's actual source — and the check
returns false. -/
theorem isPcktAvail_mismatch_buffers (g : Pckt → Nat) (s : ClientState)
    (S : Nat) (p : Pckt) (rest : List Pckt)
    (hg : ¬(bufferIsFull s.readBuffer = true ∧ g s.readBuffer = S))
    (hp : s.pending = p :: rest)
    (hsrc : g p ≠ S) :
    isPcktAvail g s S =
      (false, { s with readBuffer := p, pending := rest }) ∧
    g (isPcktAvail g s S).2.readBuffer = g p ∧
    (pcktValid p → bufferIsFull (isPcktAvail g s S).2.readBuffer = true) := by
  have hgb : (bufferIsFull s.readBuffer && (g s.readBuffer == S)) = false := by
    rw [Bool.and_eq_false_iff]
    by_cases hb : bufferIsFull s.readBuffer = true
    · right
      rw [beq_eq_false_iff_ne]
      exact fun he => hg ⟨hb, he⟩
    · left
      exact Bool.eq_false_iff.mpr hb
  constructor
  · simp [isPcktAvail, hgb, hp, hsrc]
  · constructor
    · simp [isPcktAvail, hgb, hp]
    · intro hvp
      simp [isPcktAvail, hgb, hp]
      simpa [bufferIsFull, pcktValid] using hvp

/-- Witness for C4: a packet tagged 3 arrives while source 2 is checked;
the check stores it in the buffer and reports false. -/
theorem isPcktAvail_mismatch_witness :
    (¬(bufferIsFull sMix.readBuffer = true ∧ gDemo sMix.readBuffer = 2)) ∧
    isPcktAvail gDemo sMix 2 =
      (false, { sMix with readBuffer := [7, 3], pending := [] }) :=
  ⟨by decide,
   (isPcktAvail_mismatch_buffers gDemo sMix 2 [7, 3] []
      (by decide) (by decide) (by decide)).1⟩

/-- Claim C6: on an adapter whose socket handle already exists, the
initialization action only runs the generic consumer-level hook once more
and reports success; the socket handle, the Read Buffer and every other
component of the state are unchanged. -/
theorem initAction_idempotent (maxLen : Nat) (connectOk : Bool)
    (s : ClientState) (h : s.sockOpen = true) :
    initAction maxLen connectOk s =
      (true, { s with baseInitCalls := s.baseInitCalls + 1 }) ∧
    (initAction maxLen connectOk s).2.readBuffer = s.readBuffer ∧
    (initAction maxLen connectOk s).2.sockOpen = s.sockOpen ∧
    (initAction maxLen connectOk s).2.baseInitCalls = s.baseInitCalls + 1 := by
  simp [initAction, h]

/-- Witness for C6 at a concrete initialized state. -/
theorem initAction_idempotent_witness :
    sDemo.sockOpen = true ∧
    initAction 100 true sDemo =
      (true, { sDemo with baseInitCalls := sDemo.baseInitCalls + 1 }) :=
  ⟨by decide, (initAction_idempotent 100 true sDemo (by decide)).1⟩

/-- Claim C7: the Initialization Check succeeds exactly when the maximum
packet length is strictly below 256 and the port and host have been set;
at the boundary it fails at maximum length 256 and succeeds at 255. -/
theorem initCheck_correct (maxLen : Nat) (s : ClientState) :
    (initCheck maxLen s = true ↔
      (maxLen < 256 ∧ s.port.isSome = true ∧ s.host.isSome = true)) ∧
    initCheck 256 s = false ∧
    (s.port.isSome = true → s.host.isSome = true →
      initCheck 255 s = true) := by
  refine ⟨?_, ?_, ?_⟩
  · simp [initCheck, and_assoc]
  · simp [initCheck]
  · intro hp hh
    simp [initCheck, hp, hh]

/-- Witness for C7 at the concrete configured state: the check succeeds at
maximum packet length 255 and fails at 256. -/
theorem initCheck_correct_witness :
    initCheck 255 sDemo = true ∧ initCheck 256 sDemo = false :=
  ⟨(initCheck_correct 255 sDemo).2.2 (by decide) (by decide),
   (initCheck_correct 256 sDemo).2.1⟩

/-- A packet returned by Packet Collect carries the source attribute that
was requested. -/
theorem pcktCollect_some_src (g : Pckt → Nat) (s : ClientState) (S : Nat)
    (p : Pckt) (h : (pcktCollect g s S).1 = some p) : g p = S := by
  unfold pcktCollect at h
  split at h
  case isTrue hg =>
    simp only [Prod.fst] at h
    have hp : s.readBuffer = p := by
      injection h
    rw [Bool.and_eq_true, beq_iff_eq] at hg
    rw [← hp]
    exact hg.2
  case isFalse hg =>
    simp at h

/-- Claim C2: along every sequence of interleaved Packet Available Check
and Packet Collect calls issued by the sources sharing the adapter, every
packet handed out by a collect call for source `B` is tagged `B` (so a
packet tagged `A` is never returned to `B` for `A` different from `B`),
and the single-slot Read Buffer holds at most one packet at any time. -/
theorem runEvents_safety (g : Pckt → Nat) (es : List Event)
    (s : ClientState) :
    (∀ pr ∈ (runEvents g es s).2, g pr.2 = pr.1) ∧
    (∀ t : ClientState,
      (if bufferIsFull t.readBuffer = true then 1 else 0) ≤ 1) := by
  refine ⟨?_, fun t => by split <;> simp⟩
  induction es generalizing s with
  | nil =>
      intro pr hpr
      simp [runEvents] at hpr
  | cons e es ih =>
      cases e with
      | avail src =>
          intro pr hpr
          exact ih _ pr (by simpa [runEvents] using hpr)
      | collect src =>
          intro pr hpr
          rcases hr : (pcktCollect g s src).1 with _ | p
          · simp [runEvents, hr] at hpr
            exact ih _ pr hpr
          · simp [runEvents, hr] at hpr
            rcases hpr with h1 | h2
            · rw [h1]
              simpa using pcktCollect_some_src g s src p hr
            · exact ih _ pr h2

/-- Witness for C2 on a concrete two-call trace: the only collected packet
was requested by source 1 and is tagged 1. -/
theorem runEvents_safety_witness :
    ((1, [3, 1]) ∈
      (runEvents gDemo [Event.avail 1, Event.collect 1] sDemo).2) ∧
    gDemo (((1 : Nat), ([3, 1] : Pckt))).2 = 1 :=
  ⟨by decide,
   (runEvents_safety gDemo [Event.avail 1, Event.collect 1] sDemo).1
     (1, [3, 1]) (by decide)⟩

/-- Claim C5 as stated is false: with the Read Buffer holding a packet
tagged 1 and a packet tagged 3 pending, the Packet Available Check for
source 2 performs its read, no data for source 2 arrives, yet the buffered
packet tagged 1 is overwritten by the arriving packet and a later collect
for source 1 returns NULL. -/
theorem isPcktAvail_preserve_counterexample :
    (bufferIsFull sMix.readBuffer = true ∧ gDemo sMix.readBuffer = 1 ∧
     (1 : Nat) ≠ 2 ∧ (∀ p ∈ sMix.pending, gDemo p ≠ 2)) ∧
    (isPcktAvail gDemo sMix 2).2.readBuffer ≠ sMix.readBuffer ∧
    (pcktCollect gDemo (isPcktAvail gDemo sMix 2).2 1).1 = none := by
  decide

/-- Claim C5 amended: if the Read Buffer holds a packet tagged `A` and a
Packet Available Check for a different source `B` performs its read but the
read yields no data at all (would-block), then the buffered packet is
neither overwritten nor discarded and a later collect for `A` still
returns it. -/
theorem isPcktAvail_preserves_buffer (g : Pckt → Nat) (s : ClientState)
    (A B : Nat) (hfull : bufferIsFull s.readBuffer = true)
    (htag : g s.readBuffer = A) (hAB : A ≠ B) (hnp : s.pending = []) :
    isPcktAvail g s B = (false, s) ∧
    (pcktCollect g s A).1 = some s.readBuffer := by
  have hg : (bufferIsFull s.readBuffer && (g s.readBuffer == B)) = false := by
    rw [Bool.and_eq_false_iff]
    right
    rw [beq_eq_false_iff_ne, htag]
    exact hAB
  constructor
  · simp [isPcktAvail, hg, hnp]
  · have hg2 : (bufferIsFull s.readBuffer && (g s.readBuffer == A)) = true := by
      rw [Bool.and_eq_true, beq_iff_eq]
      exact ⟨hfull, htag⟩
    simp [pcktCollect, hg2]

/-- Witness for the amended C5: buffer full and tagged 1, no data pending;
the check for source 2 reports false and changes nothing. -/
theorem isPcktAvail_preserves_buffer_witness :
    (bufferIsFull sFull.readBuffer = true ∧ gDemo sFull.readBuffer = 1 ∧
     (1 : Nat) ≠ 2 ∧ sFull.pending = []) ∧
    isPcktAvail gDemo sFull 2 = (false, sFull) :=
  ⟨by decide,
   (isPcktAvail_preserves_buffer gDemo sFull 1 2
      (by decide) (by decide) (by decide) (by decide)).1⟩

/-- Claim C8: the hand-over operation returns 1 exactly when the single
non-blocking write wrote the packet's full byte content; a would-block
condition or a partial write yields 0 with the state untouched; in every
case the Read Buffer is unchanged. -/
theorem pcktHandover_correct (written : Option Nat) (pckt : Pckt)
    (s : ClientState) :
    (pcktHandover written pckt s).2.readBuffer = s.readBuffer ∧
    ((pcktHandover written pckt s).1 = 1 ↔ written = some pckt.length) ∧
    (written = none → pcktHandover written pckt s = (0, s)) ∧
    (∀ n, written = some n → n ≠ pckt.length →
      pcktHandover written pckt s = (0, s)) := by
  rcases written with _ | n
  · refine ⟨rfl, by simp [pcktHandover], fun _ => rfl, fun n hn => by cases hn⟩
  · by_cases h : n = pckt.length
    · refine ⟨?_, ?_, ?_, ?_⟩
      · simp [pcktHandover, h]
      · simp [pcktHandover, h]
      · intro hc
        cases hc
      · intro m hm hne
        cases hm
        exact absurd h hne
    · refine ⟨?_, ?_, ?_, ?_⟩
      · simp [pcktHandover, h]
      · simp [pcktHandover, h]
      · intro hc
        cases hc
      · intro m hm hne
        simp [pcktHandover, h]

/-- Witness for C8 at a would-block write: the hand-over returns 0 and the
state, the Read Buffer included, is untouched. -/
theorem pcktHandover_correct_witness :
    ((none : Option Nat) = none) ∧
    pcktHandover none [7, 3] sDemo = (0, sDemo) :=
  ⟨rfl, (pcktHandover_correct none [7, 3] sDemo).2.2.1 rfl⟩

/-- Claim C9: the Read Buffer's FULL/EMPTY status is exactly the predicate
"first byte non-zero"; the configuration action empties the buffer by
clearing its first byte (and doing so repeatedly is idempotent), and a
successful collect empties the buffer the same way; fullness is a function
of the buffer content alone — the state carries no separate flag. -/
theorem readBuffer_fullness (g : Pckt → Nat) (s : ClientState) (S : Nat) :
    (bufferIsFull s.readBuffer = true ↔ s.readBuffer.headD 0 ≠ 0) ∧
    (configAction s).readBuffer = s.readBuffer.set 0 0 ∧
    bufferIsFull (configAction s).readBuffer = false ∧
    (configAction (configAction s)).readBuffer = (configAction s).readBuffer ∧
    ((pcktCollect g s S).1.isSome = true →
      (pcktCollect g s S).2.readBuffer = s.readBuffer.set 0 0) := by
  refine ⟨by simp [bufferIsFull], rfl, bufferIsFull_clearFirstByte _, ?_, ?_⟩
  · simp [configAction, clearFirstByte, List.set_set]
  · intro hs
    by_cases hg : (bufferIsFull s.readBuffer && (g s.readBuffer == S)) = true
    · simp [pcktCollect, hg, clearFirstByte]
    · simp [pcktCollect, hg] at hs

/-- Witness for C9: at a concrete full, matching state the collect succeeds
and the resulting buffer is the old buffer with its first byte cleared. -/
theorem readBuffer_fullness_witness :
    ((pcktCollect gDemo sFull 1).1.isSome = true) ∧
    (pcktCollect gDemo sFull 1).2.readBuffer = sFull.readBuffer.set 0 0 :=
  ⟨by decide, (readBuffer_fullness gDemo sFull 1).2.2.2.2 (by decide)⟩

/-- Claim C10: under the calling protocol — Packet Collect runs only after
a Packet Available Check has reported true (or after a poll notification)
in the same cycle with no intervening buffer mutation — the Read Buffer is
full when collect executes, so the empty-buffer branch of collect is
unreachable and a NULL return can only mean that the buffered packet's
source differs from the requested one. -/
theorem pcktCollect_protocol (g : Pckt → Nat) (s t : ClientState) (S : Nat)
    (hv : pendingValid s)
    (ha : isPcktAvail g s S = (true, t)) :
    bufferIsFull t.readBuffer = true ∧
    (∀ B, (pcktCollect g t B).1 = none → g t.readBuffer ≠ B) ∧
    (∀ u v N, pendingValid u → poll g u = (some N, v) →
      bufferIsFull v.readBuffer = true ∧ g v.readBuffer = N) := by
  have hfull : bufferIsFull t.readBuffer = true := by
    by_cases hg : (bufferIsFull s.readBuffer && (g s.readBuffer == S)) = true
    · simp [isPcktAvail, hg] at ha
      rw [← ha]
      rw [Bool.and_eq_true, beq_iff_eq] at hg
      exact hg.1
    · rcases hp : s.pending with _ | ⟨p, rest⟩
      · simp [isPcktAvail, hg, hp] at ha
      · simp [isPcktAvail, hg, hp] at ha
        rw [← ha.2]
        have hm := hv p (by rw [hp]; exact List.mem_cons_self p rest)
        simpa [bufferIsFull, pcktValid] using hm
  refine ⟨hfull, ?_, ?_⟩
  · intro B hB hEq
    have hgB : (bufferIsFull t.readBuffer && (g t.readBuffer == B)) = true := by
      rw [Bool.and_eq_true, beq_iff_eq]
      exact ⟨hfull, hEq⟩
    simp [pcktCollect, hgB] at hB
  · intro u v N hvu hpoll
    rcases hp : u.pending with _ | ⟨p, rest⟩
    · simp [poll, hp] at hpoll
    · simp [poll, hp] at hpoll
      rcases hpoll with ⟨hN, hvv⟩
      rw [← hvv]
      have hm := hvu p (by rw [hp]; exact List.mem_cons_self p rest)
      constructor
      · simpa [bufferIsFull, pcktValid] using hm
      · simpa using hN

/-- Witness for C10: after the available check for source 1 reports true on
the concrete state, the resulting Read Buffer is full. -/
theorem pcktCollect_protocol_witness :
    (pendingValid sDemo ∧ isPcktAvail gDemo sDemo 1 = (true, tDemo)) ∧
    bufferIsFull tDemo.readBuffer = true :=
  ⟨⟨by decide, by decide⟩,
   (pcktCollect_protocol gDemo sDemo tDemo 1 (by decide) (by decide)).1⟩
